import Mathlib

/-!
Verification of the SinGlu repository (src/app.py, src/utils.py).

The Python source is shallowly embedded below.  Strings are Lean `String`s;
Python string slicing / lowercasing / stripping operate per code point and are
modelled on the underlying `List Char`.  JSON values are the inductive
`JsonVal`; a Python `dict` is an association list in insertion order (keys of a
real `dict` are unique, which appears as a `Nodup` hypothesis where it
matters).  Python exceptions are `Except.error`.
-/

set_option maxRecDepth 4000

/-- JSON value, the result of `resp.json()` in the Python source. -/
inductive JsonVal where
  | null : JsonVal
  | bool : Bool → JsonVal
  | num : Int → JsonVal
  | str : String → JsonVal
  | arr : List JsonVal → JsonVal
  | obj : List (String × JsonVal) → JsonVal

/-- An HTTP response as the Python code observes it: `resp.status_code`,
`resp.text` (raw body) and `resp.json()` (parsed body). -/
structure HttpResponse where
  status_code : Nat
  text : String
  json : JsonVal

/-- Model of Python `needle in hay` begins here: prefix test on char lists. -/
def startsWithChars : List Char → List Char → Bool
  | [], _ => true
  | _ :: _, [] => false
  | a :: as, b :: bs => a == b && startsWithChars as bs

/-- Substring test on char lists: does `needle` occur contiguously in `hay`? -/
def hasSubChars (needle : List Char) : List Char → Bool
  | [] => startsWithChars needle []
  | c :: rest => startsWithChars needle (c :: rest) || hasSubChars needle rest

/-- Model of the Python membership test `needle in hay` on strings. -/
def pyIn (needle hay : String) : Bool :=
  hasSubChars needle.data hay.data

/-- Model of Python `s.lower()` (ASCII case folding, per code point). -/
def pyLower (s : String) : String :=
  ⟨s.data.map Char.toLower⟩

/-- Model of Python `s.strip()`: drop leading and trailing whitespace. -/
def pyStrip (s : String) : String :=
  ⟨((s.data.dropWhile Char.isWhitespace).reverse.dropWhile Char.isWhitespace).reverse⟩

/-- Model of Python slicing `s[:n]` (first `n` code points). -/
def pySlice (s : String) (n : Nat) : String :=
  ⟨s.data.take n⟩

/-- `sub` occurs contiguously inside `hay` (specification-level notion of
"contains as a substring"). -/
def containsStr (hay sub : String) : Prop :=
  ∃ p q : String, hay = p ++ (sub ++ q)

/-- The static configuration the Python module reads at startup:
`AFFILIATE_LINKS` (loaded from `affiliate_links.json`, product →
region → base URL) and `st.secrets` (string key → string value). -/
structure Config where
  affiliate_links : List (String × List (String × String))
  secrets : List (String × String)

/-- Model of `st.secrets.get(key, "")`. -/
def secrets_get (cfg : Config) (key : String) : String :=
  (List.lookup key cfg.secrets).getD ""

/-- The `SUBS` dictionary of src/app.py lines 26-41, in declaration order. -/
def SUBS : List (String × String) :=
  [("wheat flour", "gluten-free all-purpose flour or rice flour"),
   ("flour", "gluten-free all-purpose flour"),
   ("breadcrumbs", "gluten-free breadcrumbs or crushed cornflakes"),
   ("soy sauce", "tamari (gluten-free) or coconut aminos"),
   ("pasta", "gluten-free pasta (rice/corn/quinoa)"),
   ("noodles", "rice noodles or glass noodles"),
   ("tortilla", "corn tortilla (check GF certified)"),
   ("barley", "brown rice or quinoa"),
   ("rye", "buckwheat groats (naturally GF)"),
   ("couscous", "quinoa or millet"),
   ("bulgur", "quinoa or cauliflower rice"),
   ("semolina", "rice flour or cornmeal"),
   ("malt", "omit or use maple syrup (for flavoring)"),
   ("beer", "gluten-free beer or stock")]

/-- `get_affiliate_link` (src/app.py lines 44-60): lowercase the product name,
look it up in the catalog, look up the region, and append `?tag=<tag>` exactly
when a non-empty affiliate tag is configured for the region. -/
def get_affiliate_link (cfg : Config) (product_name : String) (region : String) : Option String :=
  let product := pyLower product_name
  match List.lookup product cfg.affiliate_links with
  | none => none
  | some links =>
    match List.lookup region links with
    | none => none
    | some base_url =>
      let tag := secrets_get cfg ("affiliate_tag_" ++ region)
      if tag = "" then some base_url else some (base_url ++ ("?tag=" ++ tag))

/-- A flag produced by the Flagger: matched keyword, its substitute, and an
optional affiliate link. -/
structure FlagResult where
  ingredient : String
  substitute : String
  link : Option String
deriving DecidableEq

/-- `possible_gluten_flags_with_links` (src/app.py lines 62-84): lowercase the
text, then for each `SUBS` entry in declaration order, emit a flag when the
keyword occurs in the text. -/
def possible_gluten_flags_with_links (cfg : Config) (ingredients_text : String)
    (region : String) : List FlagResult :=
  let text := pyLower ingredients_text
  (SUBS.filter (fun kv => pyIn kv.1 text)).map
    (fun kv => { ingredient := kv.1, substitute := kv.2,
                 link := get_affiliate_link cfg kv.2 region })

/-- `get_affiliate_recommendations` (src/app.py lines 86-102): for each catalog
product in order, recommend it when the product name occurs in the lowercased
text and the region is present in its links. -/
def get_affiliate_recommendations (cfg : Config) (ingredients_text : String)
    (region : String) : List (String × Option String) :=
  let text := pyLower ingredients_text
  (cfg.affiliate_links.filter
      (fun pl => pyIn pl.1 text && (List.lookup region pl.2).isSome)).map
    (fun pl => (pl.1, get_affiliate_link cfg pl.1 region))

/-- Python `data[key]` on a parsed JSON value: field of an object, else the
corresponding exception. -/
def jsonField (j : JsonVal) (key : String) : Except String JsonVal :=
  match j with
  | .obj fields =>
    match List.lookup key fields with
    | some v => Except.ok v
    | none => Except.error ("KeyError: " ++ key)
  | _ => Except.error ("TypeError: value has no field " ++ key)

/-- Python `data[i]` for an integer index on a parsed JSON value. -/
def jsonIndex (j : JsonVal) (i : Nat) : Except String JsonVal :=
  match j with
  | .arr xs =>
    match xs.get? i with
    | some v => Except.ok v
    | none => Except.error "IndexError: list index out of range"
  | .obj _ => Except.error ("KeyError: " ++ toString i)
  | _ => Except.error "TypeError: value is not subscriptable"

/-- The error message raised on a non-200 status
(src/app.py line 121: `HF API error {status}: {text[:500]}`). -/
def hf_error_msg (code : Nat) (body : String) : String :=
  "HF API error " ++ (toString code ++ (": " ++ pySlice body 500))

/-- The envelope extraction `data["choices"][0]["message"]["content"]`
(src/app.py line 123). -/
def hf_extract (data : JsonVal) : Except String JsonVal :=
  match jsonField data "choices" with
  | Except.error e => Except.error e
  | Except.ok choices =>
    match jsonIndex choices 0 with
    | Except.error e => Except.error e
    | Except.ok c0 =>
      match jsonField c0 "message" with
      | Except.error e => Except.error e
      | Except.ok msg => jsonField msg "content"

/-- Response handling of `hf_generate_chat` (src/app.py lines 104-123).  The
request construction (the `messages` payload) does not affect any modelled
behavior.  A non-200 status raises `RuntimeError` with the status code and the
body truncated to 500 characters; a 200 status extracts
`data["choices"][0]["message"]["content"]` with no fallback. -/
def hf_generate_chat (resp : HttpResponse) : Except String JsonVal :=
  if resp.status_code ≠ 200 then
    Except.error (hf_error_msg resp.status_code resp.text)
  else
    hf_extract resp.json

/-- A scripted endpoint maps the attempt index to the response returned on
that attempt.  `hf_generate_chat` contains a single `requests.post` call and
no loop (src/app.py line 119), so a run consults only the response of attempt
0 and the number of attempts made is 1.  The second component records the
attempt count. -/
def hf_run (endpoint : Nat → HttpResponse) : Except String JsonVal × Nat :=
  (hf_generate_chat (endpoint 0), 1)

/-- Response handling of `call_hf_model` (src/utils.py lines 4-11):
`raise_for_status` raises on any 4xx/5xx status, then the code extracts
`response.json()[0]["generated_text"]` with no fallback. -/
def call_hf_model (resp : HttpResponse) : Except String JsonVal :=
  if 400 ≤ resp.status_code ∧ resp.status_code < 600 then
    Except.error ("HTTPError: " ++ toString resp.status_code)
  else
    match jsonIndex resp.json 0 with
    | Except.error e => Except.error e
    | Except.ok first => jsonField first "generated_text"

/-- An apostrophe code point, used in the prompt template text. -/
def apos : String :=
  String.singleton (Char.ofNat 39)

/-- `build_prompt` (src/app.py lines 125-166): the fixed f-string template.
Blank (stripped-empty) avoidance text renders as the literal
"None specified". -/
def build_prompt (ingredients avoid : String) (servings recipes_count : Nat) : String :=
  "\nYou are a culinary assistant specialized in gluten-free cooking. Ensure every recipe is 100% gluten-free. \nIf any provided ingredient contains gluten, automatically swap it for safe alternatives and mention the swap.\n\nUser ingredients: " ++
  (ingredients ++
   ("\nAllergens/diet to avoid (besides gluten): " ++
    ((if pyStrip avoid = "" then "None specified" else avoid) ++
     ("\nServings: " ++
      (toString servings ++
       ("\n\nTASK: Create " ++
        (toString recipes_count ++
         (" distinct gluten-free recipe OPTIONS that primarily use the user" ++
          (apos ++
           ("s ingredients.\nEach option must follow EXACTLY this Markdown format:\n\n# Recipe Title\nServings: <number>\nPrep: <minutes> | Cook: <minutes>\n\n## Ingredients\n- <bullet list of GF ingredients only>\n\n## Method\n1. <step>\n2. <step>\n3. <step>\n\n## Substitutions & Notes\n- <list any swaps or GF cautions>\n- <tips for variations or storage>\n\nKeep it concise but practical. Avoid brand names. Always ensure substitutes are safe for celiac/gluten intolerance.\n"))))))))))

/-! ### String-level helper lemmas -/

theorem str_data_append (s t : String) : (s ++ t).data = s.data ++ t.data := rfl

theorem str_ext {s t : String} (h : s.data = t.data) : s = t := by
  cases s; cases t; exact congrArg String.mk h

theorem strAppendAssoc (a b c : String) : (a ++ b) ++ c = a ++ (b ++ c) :=
  str_ext (by simp [str_data_append])

theorem startsWithChars_iff (n h : List Char) :
    startsWithChars n h = true ↔ ∃ t, h = n ++ t := by
  induction n generalizing h with
  | nil => simp [startsWithChars]
  | cons a as ih =>
    cases h with
    | nil =>
      simp [startsWithChars]
    | cons b bs =>
      simp only [startsWithChars, Bool.and_eq_true, beq_iff_eq, ih, List.cons_append,
        List.cons.injEq]
      constructor
      · rintro ⟨rfl, t, rfl⟩
        exact ⟨t, rfl, rfl⟩
      · rintro ⟨t, rfl, rfl⟩
        exact ⟨rfl, t, rfl⟩

theorem hasSubChars_iff (n h : List Char) :
    hasSubChars n h = true ↔ ∃ p t, h = p ++ (n ++ t) := by
  induction h with
  | nil =>
    simp only [hasSubChars, startsWithChars_iff]
    constructor
    · rintro ⟨t, ht⟩
      exact ⟨[], t, by simpa using ht⟩
    · rintro ⟨p, t, hpt⟩
      rcases List.append_eq_nil.mp hpt.symm with ⟨rfl, h2⟩
      exact ⟨t, by simpa using hpt⟩
  | cons c rest ih =>
    simp only [hasSubChars, Bool.or_eq_true, startsWithChars_iff, ih]
    constructor
    · rintro (⟨t, ht⟩ | ⟨p, t, rfl⟩)
      · exact ⟨[], t, by simpa using ht⟩
      · exact ⟨c :: p, t, rfl⟩
    · rintro ⟨p, t, hpt⟩
      cases p with
      | nil => exact Or.inl ⟨t, by simpa using hpt⟩
      | cons d ds =>
        rw [List.cons_append] at hpt
        injection hpt with h1 h2
        exact Or.inr ⟨ds, t, h2⟩

/-- The Python membership test `needle in hay` agrees with the mathematical
substring decomposition. -/
theorem pyIn_iff (needle hay : String) :
    pyIn needle hay = true ↔ containsStr hay needle := by
  constructor
  · intro hp
    obtain ⟨p, t, hpt⟩ := (hasSubChars_iff _ _).mp hp
    exact ⟨⟨p⟩, ⟨t⟩, str_ext (by simpa [str_data_append] using hpt)⟩
  · rintro ⟨p, q, rfl⟩
    exact (hasSubChars_iff _ _).mpr ⟨p.data, q.data, by simp [str_data_append]⟩

/-! ### Ingredient Flagger -/

/-- C6: the Flagger emits a flag for exactly those `SUBS` keywords that occur
as substrings of the lowercased ingredient text (so both "wheat flour" and
"flour" are surfaced separately when both occur), and a text containing no
keyword — in particular an empty or whitespace-only text — yields the empty
result list. -/
theorem C6_flagger (cfg : Config) (text region : String) :
    (∀ k v, (k, v) ∈ SUBS →
      (containsStr (pyLower text) k ↔
        (FlagResult.mk k v (get_affiliate_link cfg v region)) ∈
          possible_gluten_flags_with_links cfg text region)) ∧
    ((SUBS.all fun kv => !(pyIn kv.1 (pyLower text))) = true →
      possible_gluten_flags_with_links cfg text region = []) := by
  constructor
  · intro k v hkv
    constructor
    · intro hsub
      have hp : pyIn k (pyLower text) = true := (pyIn_iff _ _).mpr hsub
      have hfil : (k, v) ∈ SUBS.filter (fun kv => pyIn kv.1 (pyLower text)) :=
        List.mem_filter.mpr ⟨hkv, hp⟩
      exact List.mem_map.mpr ⟨(k, v), hfil, rfl⟩
    · intro hmem
      obtain ⟨kv, hfil, heq⟩ := List.mem_map.mp hmem
      have hk : kv.1 = k := congrArg FlagResult.ingredient heq
      have hp : pyIn kv.1 (pyLower text) = true := (List.mem_filter.mp hfil).2
      exact (pyIn_iff _ _).mp (hk ▸ hp)
  · intro hall
    have hfil : SUBS.filter (fun kv => pyIn kv.1 (pyLower text)) = [] := by
      rw [List.filter_eq_nil_iff]
      intro kv hkv
      have := List.all_eq_true.mp hall kv hkv
      simpa using this
    simp [possible_gluten_flags_with_links, hfil]

/-- C9: the flag list names each keyword at most once, appears in `SUBS`
declaration order (as a sublist of `SUBS`), and each flag carries as
substitute exactly the dictionary value of its keyword. -/
theorem C9_flag_invariants (cfg : Config) (text region : String) :
    List.Sublist
      ((possible_gluten_flags_with_links cfg text region).map
        (fun f => (f.ingredient, f.substitute))) SUBS ∧
    ((possible_gluten_flags_with_links cfg text region).map
        (fun f => f.ingredient)).Nodup ∧
    ∀ f, f ∈ possible_gluten_flags_with_links cfg text region →
      (f.ingredient, f.substitute) ∈ SUBS := by
  have hpairs :
      (possible_gluten_flags_with_links cfg text region).map
        (fun f => (f.ingredient, f.substitute)) =
      SUBS.filter (fun kv => pyIn kv.1 (pyLower text)) := by
    unfold possible_gluten_flags_with_links
    rw [List.map_map]
    rw [show ((fun f : FlagResult => (f.ingredient, f.substitute)) ∘
        fun kv : String × String =>
          ({ ingredient := kv.1, substitute := kv.2,
             link := get_affiliate_link cfg kv.2 region } : FlagResult)) = id from rfl]
    exact List.map_id _
  have hsub :
      List.Sublist
        ((possible_gluten_flags_with_links cfg text region).map
          (fun f => (f.ingredient, f.substitute))) SUBS := by
    rw [hpairs]; exact List.filter_sublist SUBS
  refine ⟨hsub, ?_, ?_⟩
  · have hkeys : (SUBS.map Prod.fst).Nodup := by decide
    have hmapsub := hsub.map Prod.fst
    rw [List.map_map] at hmapsub
    have : ((possible_gluten_flags_with_links cfg text region).map
        (fun f => f.ingredient)).Sublist (SUBS.map Prod.fst) := by
      simpa [Function.comp] using hmapsub
    exact hkeys.sublist this
  · intro f hf
    have : (f.ingredient, f.substitute) ∈
        (possible_gluten_flags_with_links cfg text region).map
          (fun f => (f.ingredient, f.substitute)) :=
      List.mem_map.mpr ⟨f, hf, rfl⟩
    exact hsub.subset this

/-- An empty configuration (no catalog file, no secrets). -/
def cfg0 : Config :=
  { affiliate_links := [], secrets := [] }

/-- C6 witness: "Wheat Flour and water" surfaces the "flour" keyword
(case-insensitively, inside surrounding text), and a whitespace-only text
yields no flags. -/
theorem C6_witness :
    FlagResult.mk "flour" "gluten-free all-purpose flour" none ∈
      possible_gluten_flags_with_links cfg0 "Wheat Flour and water" "uk" ∧
    possible_gluten_flags_with_links cfg0 "   " "uk" = [] := by
  constructor
  · exact ((C6_flagger cfg0 "Wheat Flour and water" "uk").1 "flour"
      "gluten-free all-purpose flour" (by decide)).mp ⟨"wheat ", " and water", by decide⟩
  · exact (C6_flagger cfg0 "   " "uk").2 (by decide)

/-- C9 witness: the flag produced for "flour" carries exactly the dictionary
substitute. -/
theorem C9_witness :
    ("flour", "gluten-free all-purpose flour") ∈ SUBS :=
  (C9_flag_invariants cfg0 "flour" "uk").2.2
    (FlagResult.mk "flour" "gluten-free all-purpose flour" none) (by decide)

/-! ### Affiliate links -/

/-- C7: link resolution is `none` when the catalog has no entry for the
product/region pair, and for a present pair it returns the configured base
URL, suffixed with `?tag=` exactly when a non-empty affiliate tag is
configured for the region. -/
theorem C7_affiliate_link (cfg : Config) (product region : String) :
    ((List.lookup (pyLower product) cfg.affiliate_links).bind (List.lookup region) = none →
      get_affiliate_link cfg product region = none) ∧
    ∀ base_url,
      (List.lookup (pyLower product) cfg.affiliate_links).bind
          (List.lookup region) = some base_url →
      get_affiliate_link cfg product region =
        some (if secrets_get cfg ("affiliate_tag_" ++ region) = "" then base_url
              else base_url ++ ("?tag=" ++ secrets_get cfg ("affiliate_tag_" ++ region))) := by
  unfold get_affiliate_link
  cases h1 : List.lookup (pyLower product) cfg.affiliate_links with
  | none => simp [h1]
  | some links =>
    cases h2 : List.lookup region links with
    | none => simp [h1, h2]
    | some base_url =>
      refine ⟨by simp [h1, h2], ?_⟩
      intro b hb
      simp only [h1, Option.some_bind, h2, Option.some.injEq] at hb
      subst hb
      by_cases htag : secrets_get cfg ("affiliate_tag_" ++ region) = "" <;>
        simp [h1, h2, htag]

/-- The affiliate catalog entries of the C7 witness: "gf bread" exists for
region "uk" only, and a non-empty tag is configured for "uk". -/
def cfgUK : Config :=
  { affiliate_links := [("gf bread", [("uk", "https://example.com/gf-bread")])],
    secrets := [("affiliate_tag_uk", "singlu-21")] }

/-- C7 witness: region "es" yields no link, region "uk" yields the base URL
with the configured tag appended. -/
theorem C7_witness :
    get_affiliate_link cfgUK "GF Bread" "es" = none ∧
    get_affiliate_link cfgUK "GF Bread" "uk" =
      some "https://example.com/gf-bread?tag=singlu-21" := by
  refine ⟨(C7_affiliate_link cfgUK "GF Bread" "es").1 (by decide), ?_⟩
  exact ((C7_affiliate_link cfgUK "GF Bread" "uk").2 "https://example.com/gf-bread"
    (by decide)).trans (by decide)

/-- Association-list lookup of a member pair, under unique keys (the invariant
of a Python `dict`). -/
theorem lookup_eq_of_mem_nodup {β : Type} (l : List (String × β)) (a : String) (b : β)
    (hm : (a, b) ∈ l) (hn : (l.map Prod.fst).Nodup) : List.lookup a l = some b := by
  induction l with
  | nil => cases hm
  | cons hd tl ih =>
    rcases List.mem_cons.mp hm with heq | htl
    · subst heq
      simp [List.lookup]
    · have hne : a ≠ hd.1 := by
        intro hcontra
        have : hd.1 ∈ tl.map Prod.fst := by
          rw [← hcontra]
          exact List.mem_map.mpr ⟨(a, b), htl, rfl⟩
        exact (List.nodup_cons.mp hn).1 this
      have : (a == hd.1) = false := beq_eq_false_iff_ne.mpr hne
      cases hd with
      | mk k v =>
        simp only [List.lookup, this]
        exact ih htl (List.nodup_cons.mp hn).2

/-- C10: when every catalog product name is lowercase (and catalog keys are
unique, as in a Python dict), every recommendation pair carries a non-absent
link: a pair is only emitted when the region is present in the product's
catalog entry, so the link resolution cannot come back empty. -/
theorem C10_recs_links (cfg : Config) (text region : String)
    (hlower : ∀ pl ∈ cfg.affiliate_links, pyLower pl.1 = pl.1)
    (hnodup : (cfg.affiliate_links.map Prod.fst).Nodup) :
    ∀ pr ∈ get_affiliate_recommendations cfg text region, pr.2 ≠ none := by
  intro pr hpr
  unfold get_affiliate_recommendations at hpr
  obtain ⟨pl, hfil, hmk⟩ := List.mem_map.mp hpr
  obtain ⟨hmem, hpred⟩ := List.mem_filter.mp hfil
  have hsome : (List.lookup region pl.2).isSome = true :=
    (Bool.and_eq_true ..).mp hpred |>.2
  obtain ⟨base, hbase⟩ := Option.isSome_iff_exists.mp hsome
  have hlook : List.lookup pl.1 cfg.affiliate_links = some pl.2 :=
    lookup_eq_of_mem_nodup cfg.affiliate_links pl.1 pl.2 (by simpa using hmem) hnodup
  have hlink : get_affiliate_link cfg pl.1 region ≠ none := by
    unfold get_affiliate_link
    rw [hlower pl hmem]
    simp only [hlook, hbase]
    by_cases htag : secrets_get cfg ("affiliate_tag_" ++ region) = "" <;> simp [htag]
  rw [← hmk]
  exact hlink

/-- The catalog of the C10 witness. -/
def cfgRec : Config :=
  { affiliate_links := [("gf pasta", [("uk", "https://example.com/gf-pasta")])],
    secrets := [] }

/-- C10 witness: the recommendation emitted for "gf pasta" carries a
non-absent link. -/
theorem C10_witness :
    (("gf pasta", some "https://example.com/gf-pasta") : String × Option String).2 ≠ none := by
  apply C10_recs_links cfgRec "I love gf pasta" "uk" (by decide) (by decide)
  decide

/-! ### Inference Client -/

/-- C4: on any non-success status outside the transient set (429/503/408 —
for example 401), the client fails on the first attempt with no retry, and the
failure message carries the status code and the body truncated to 500
characters. -/
theorem C4_immediate_failure (ep : Nat → HttpResponse)
    (hne : (ep 0).status_code ≠ 200)
    (_h429 : (ep 0).status_code ≠ 429) (_h503 : (ep 0).status_code ≠ 503)
    (_h408 : (ep 0).status_code ≠ 408) :
    (hf_run ep).1 = Except.error (hf_error_msg (ep 0).status_code (ep 0).text) ∧
    (hf_run ep).2 = 1 ∧
    containsStr (hf_error_msg (ep 0).status_code (ep 0).text)
      (toString (ep 0).status_code) ∧
    hf_error_msg (ep 0).status_code (ep 0).text =
      "HF API error " ++ (toString (ep 0).status_code ++ (": " ++ pySlice (ep 0).text 500)) := by
  refine ⟨?_, rfl, ⟨"HF API error ", ": " ++ pySlice (ep 0).text 500, rfl⟩, rfl⟩
  simp [hf_run, hf_generate_chat, hne]

/-- A scripted endpoint that answers 401 once (and on every further attempt,
which the client never makes). -/
def ep401 : Nat → HttpResponse :=
  fun _ => { status_code := 401, text := "Unauthorized", json := JsonVal.null }

/-- C4 witness: 401 fails on the first attempt and the message carries "401"
and the body. -/
theorem C4_witness :
    (hf_run ep401).1 = Except.error (hf_error_msg 401 "Unauthorized") ∧
    (hf_run ep401).2 = 1 := by
  have h := C4_immediate_failure ep401 (by decide) (by decide) (by decide) (by decide)
  exact ⟨h.1, h.2.1⟩

/-- C5: on a 200 status whose body is a valid chat-completion envelope, the
client returns exactly the content of the first choice's message. -/
theorem C5_success_extract (resp : HttpResponse)
    (first : List (String × JsonVal)) (restChoices : List JsonVal)
    (msgFields : List (String × JsonVal)) (content : JsonVal)
    (h200 : resp.status_code = 200)
    (hjson : resp.json =
      JsonVal.obj [("choices", JsonVal.arr (JsonVal.obj first :: restChoices))])
    (hmsg : List.lookup "message" first = some (JsonVal.obj msgFields))
    (hcontent : List.lookup "content" msgFields = some content) :
    hf_generate_chat resp = Except.ok content := by
  simp [hf_generate_chat, h200, hjson, hf_extract, jsonField, jsonIndex,
    List.lookup, hmsg, hcontent]

/-- A 200 response carrying a valid chat-completion envelope. -/
def respReady : HttpResponse :=
  { status_code := 200, text := "ok",
    json := JsonVal.obj [("choices", JsonVal.arr
      [JsonVal.obj [("message", JsonVal.obj
        [("role", JsonVal.str "assistant"),
         ("content", JsonVal.str "Here is a recipe.")])]])] }

/-- C5 witness: the embedded message content is returned unchanged. -/
theorem C5_witness :
    hf_generate_chat respReady = Except.ok (JsonVal.str "Here is a recipe.") :=
  C5_success_extract respReady
    [("message", JsonVal.obj [("role", JsonVal.str "assistant"),
       ("content", JsonVal.str "Here is a recipe.")])]
    [] [("role", JsonVal.str "assistant"), ("content", JsonVal.str "Here is a recipe.")]
    (JsonVal.str "Here is a recipe.") rfl rfl rfl rfl

/-- A scripted endpoint that answers 429 on every attempt (in particular on
six consecutive attempts). -/
def ep429 : Nat → HttpResponse :=
  fun _ => { status_code := 429, text := "Too Many Requests", json := JsonVal.null }

/-- C1 counterexample: against an endpoint answering 429 on six consecutive
attempts, the client does not make six attempts — it makes only one. -/
theorem C1_counterexample : (hf_run ep429).2 ≠ 6 := by
  decide

/-- C1 amended: on a 429 response the client makes exactly one attempt, with
no pauses, and surfaces a failure carrying "429" without ever returning a
success value (there is no retry loop in the code). -/
theorem C1_rate_limited_single_attempt (ep : Nat → HttpResponse)
    (h : (ep 0).status_code = 429) :
    (hf_run ep).1 = Except.error (hf_error_msg 429 (ep 0).text) ∧
    (hf_run ep).2 = 1 ∧
    containsStr (hf_error_msg 429 (ep 0).text) "429" ∧
    ∀ v, (hf_run ep).1 ≠ Except.ok v := by
  refine ⟨?_, rfl, ⟨"HF API error ", ": " ++ pySlice (ep 0).text 500, rfl⟩, ?_⟩
  · simp [hf_run, hf_generate_chat, h]
  · intro v
    simp [hf_run, hf_generate_chat, h]

/-- C1 witness: the amended behavior at the concrete 429 endpoint. -/
theorem C1_witness :
    (hf_run ep429).1 = Except.error (hf_error_msg 429 "Too Many Requests") ∧
    (hf_run ep429).2 = 1 :=
  ⟨(C1_rate_limited_single_attempt ep429 rfl).1,
   (C1_rate_limited_single_attempt ep429 rfl).2.1⟩

/-- The 503 model-loading response of the C2 scenario, carrying an
estimated-time field of 2. -/
def respLoading : HttpResponse :=
  { status_code := 503, text := "model loading, estimated_time 2",
    json := JsonVal.obj [("error", JsonVal.str "loading"),
                         ("estimated_time", JsonVal.num 2)] }

/-- A scripted endpoint answering 503 (model loading) on the first attempt and
200 with a valid payload afterwards. -/
def ep503then200 : Nat → HttpResponse :=
  fun n => if n = 0 then respLoading else respReady

/-- C2 counterexample: against an endpoint answering 503 (estimated-time 2)
then 200, the client neither makes two attempts nor returns the success
payload. -/
theorem C2_counterexample :
    ¬((hf_run ep503then200).2 = 2 ∧
      ∃ v, (hf_run ep503then200).1 = Except.ok v) := by
  intro hcl
  exact absurd hcl.1 (by decide)

/-- C2 amended: on a 503 response the client fails on the first attempt with
no pause and no retry — it makes exactly one attempt, surfaces a failure
carrying "503", and never reaches the following 200 response. -/
theorem C2_loading_single_attempt (ep : Nat → HttpResponse)
    (h : (ep 0).status_code = 503) :
    (hf_run ep).1 = Except.error (hf_error_msg 503 (ep 0).text) ∧
    (hf_run ep).2 = 1 ∧
    containsStr (hf_error_msg 503 (ep 0).text) "503" ∧
    ∀ v, (hf_run ep).1 ≠ Except.ok v := by
  refine ⟨?_, rfl, ⟨"HF API error ", ": " ++ pySlice (ep 0).text 500, rfl⟩, ?_⟩
  · simp [hf_run, hf_generate_chat, h]
  · intro v
    simp [hf_run, hf_generate_chat, h]

/-- C2 witness: the amended behavior at the concrete 503-then-200 endpoint. -/
theorem C2_witness :
    (hf_run ep503then200).1 =
      Except.error (hf_error_msg 503 "model loading, estimated_time 2") ∧
    (hf_run ep503then200).2 = 1 :=
  ⟨(C2_loading_single_attempt ep503then200 rfl).1,
   (C2_loading_single_attempt ep503then200 rfl).2.1⟩

/-- A 200 response whose JSON body matches neither the chat-completion shape
nor the legacy text-generation shape. -/
def respBadShape : HttpResponse :=
  { status_code := 200, text := "generated: hi",
    json := JsonVal.obj [("generated", JsonVal.str "hi")] }

/-- C3 counterexample: on a 200 response with an unknown envelope shape the
client raises (a KeyError in both clients) instead of returning the raw
payload rendered as text. -/
theorem C3_counterexample :
    hf_generate_chat respBadShape = Except.error "KeyError: choices" ∧
    call_hf_model respBadShape = Except.error "KeyError: 0" := by
  constructor
  · rfl
  · rfl

/-- C3 amended: on a 200 response whose JSON object lacks the "choices" key,
`hf_generate_chat` raises a KeyError rather than falling back to the raw
payload; no raw-text fallback exists in the code. -/
theorem C3_no_fallback (resp : HttpResponse) (fields : List (String × JsonVal))
    (h200 : resp.status_code = 200)
    (hobj : resp.json = JsonVal.obj fields)
    (hmiss : List.lookup "choices" fields = none) :
    hf_generate_chat resp = Except.error "KeyError: choices" := by
  simp [hf_generate_chat, h200, hf_extract, hobj, jsonField, hmiss]

/-- C3 witness: the amended behavior at the concrete malformed 200 response. -/
theorem C3_witness :
    hf_generate_chat respBadShape = Except.error "KeyError: choices" :=
  C3_no_fallback respBadShape [("generated", JsonVal.str "hi")] rfl rfl rfl

/-! ### Prompt Builder -/

theorem containsStr_append_left (a hay sub : String) (h : containsStr hay sub) :
    containsStr (a ++ hay) sub := by
  obtain ⟨p, q, rfl⟩ := h
  exact ⟨a ++ p, q, (strAppendAssoc a p (sub ++ q)).symm⟩

/-- C8: `build_prompt` is a pure deterministic function — identical inputs
yield identical strings — and blank (stripped-empty) avoidance text renders
the literal "None specified" in its place in the prompt. -/
theorem C8_build_prompt_deterministic (i a : String) (s r : Nat)
    (i' a' : String) (s' r' : Nat)
    (hi : i = i') (ha : a = a') (hs : s = s') (hr : r = r') :
    build_prompt i a s r = build_prompt i' a' s' r' ∧
    (pyStrip a = "" →
      build_prompt i a s r = build_prompt i "None specified" s r ∧
      containsStr (build_prompt i a s r) "None specified") := by
  subst hi; subst ha; subst hs; subst hr
  refine ⟨rfl, fun hb => ?_⟩
  have hren : build_prompt i a s r = build_prompt i "None specified" s r := by
    unfold build_prompt
    rw [if_pos hb, if_neg (by decide)]
  refine ⟨hren, ?_⟩
  rw [hren]
  unfold build_prompt
  rw [if_neg (by decide)]
  apply containsStr_append_left
  apply containsStr_append_left
  apply containsStr_append_left
  exact ⟨"", _, rfl⟩

/-- C8 witness: whitespace-only avoidance text renders as "None specified". -/
theorem C8_witness :
    build_prompt "rice, eggs" "  " 2 2 = build_prompt "rice, eggs" "None specified" 2 2 :=
  ((C8_build_prompt_deterministic "rice, eggs" "  " 2 2 "rice, eggs" "  " 2 2
      rfl rfl rfl rfl).2 (by decide)).1
